import Mathlib

/-!
Verification of the Houdini HDRI browser (src/Houdini_HDRI_UI.py).

The development shallowly embeds the parts of the program the claims are
about:

* the thumbnail decode pipeline of `ThumbnailWorker.run` (sanitization of
  NaN/Inf, clamping, 8-bit quantization, channel policy, metadata text);
* the browse-session state of `EXRBrowser` (`card_data` table, progress
  counters, status label, grid, worker-pool queue) and its operations
  `clear`, `load_exrs`, `_on_thumbnail_loaded`, `_on_thumbnail_error`,
  `_update_progress`;
* the host-scene adapter (`_apply_env_light`, `on_intensity_changed`,
  `on_location_changed`) over an abstract Houdini scene.

Machine floats of the source are modelled by exact rationals extended with
NaN and the two infinities; `numpy`'s `nan_to_num` / `clip` / `astype(uint8)`
are translated with their documented semantics.  Strings that the program
builds with f-strings are built with `++` and `toString`.
-/

/-- A pixel channel value as produced by `inp.read_image(format=oiio.FLOAT)`:
an ordinary finite value (modelled exactly as a rational) or one of the
IEEE special values NaN, `+Inf`, `-Inf`. -/
inductive FloatVal
  | nan
  | pinf
  | ninf
  | fin (q : ℚ)
deriving DecidableEq

/-- Largest finite `float32` value, the value `numpy.nan_to_num` substitutes
for `+Inf` on `float32` data (and its negation for `-Inf`). -/
def F32MAX : ℚ := 340282346638528859811704183484516925440

/-- Model of `numpy.nan_to_num` (line 139): NaN becomes `0`, `+Inf` becomes the largest
finite value, `-Inf` becomes the most negative finite value; finite values
pass through. -/
def nanToNum : FloatVal → ℚ
  | .nan => 0
  | .pinf => F32MAX
  | .ninf => -F32MAX
  | .fin q => q

/-- Model of `np.clip(img, 0.0, 1.0)` (line 140) on one channel value. -/
def clip01 (q : ℚ) : ℚ := min 1 (max 0 q)

/-- Model of `(img * 255).astype(np.uint8)` (line 141) on one clipped channel value:
multiply by 255 and truncate to an integer (truncation toward zero equals
`floor` on the non-negative values produced by the clip). -/
def quantize8 (q : ℚ) : ℕ := (Int.floor (q * 255)).toNat

/-- The whole per-channel sanitization of `ThumbnailWorker.run`
(lines 139-141). -/
def sanitizePixel (v : FloatVal) : ℕ := quantize8 (clip01 (nanToNum v))

/-- Lines 139-141 applied to a full pixel buffer. -/
def sanitize (img : List FloatVal) : List ℕ := img.map sanitizePixel

/-- The sanitization as the specification words it ("replaces NaN/Inf with 0,
then clamps every channel to [0.0, 1.0]", then quantizes).  Stated only to be
compared against `sanitizePixel`, which is translated from the source. -/
def specSanitizePixel : FloatVal → ℕ
  | .nan => quantize8 (clip01 0)
  | .pinf => quantize8 (clip01 0)
  | .ninf => quantize8 (clip01 0)
  | .fin q => quantize8 (clip01 q)

/-- The image header as reported by `inp.spec()`. -/
structure ImageSpec where
  width : ℕ
  height : ℕ
  nchannels : ℕ
deriving DecidableEq

/-- The metadata text `f"{spec.width}×{spec.height} · {spec.nchannels}ch"`
(line 171). -/
def infoText (spec : ImageSpec) : String :=
  toString spec.width ++ "×" ++ toString spec.height ++ " · " ++
    toString spec.nchannels ++ "ch"

/-- The decoded preview a successful `ThumbnailWorker.run` emits: the 8-bit
pixel bytes backing the `QImage`, whether the grayscale format was used, and
the metadata text. -/
structure Preview where
  bytes : List ℕ
  grayscale : Bool
  info : String
deriving DecidableEq

/-- Model of `img[:, :, :3]` (line 155): keep the first 3 of every `c` interleaved
channels. -/
def sliceFirst3 (c : ℕ) (img : List ℕ) : List ℕ :=
  ((img.toChunks c).map (fun px => px.take 3)).flatten

/-- Reading `n` bytes from a pixel buffer, as the `QImage(...).copy()` calls
do with `n = height * bytesPerLine`.  Reading past the end of the buffer is
undefined behaviour in the source (the buffer is too small for the declared
stride), modelled as `none`. -/
def readBytes (buf : List ℕ) (n : ℕ) : Option (List ℕ) :=
  if n ≤ buf.length then some (buf.take n) else none

/-- The decode of `ThumbnailWorker.run` (lines 134-171) after the file has
been read into `spec`/`pixels`: sanitize, then build either the grayscale
`QImage` (1 channel, stride `width`) or the `Format_RGB888` image (any other
channel count, stride `width * 3`, after keeping the first 3 channels when
`nchannels >= 3`).  `none` means the construction read past the end of the
pixel buffer. -/
def decode (spec : ImageSpec) (pixels : List FloatVal) : Option Preview :=
  let img := sanitize pixels
  if spec.nchannels == 1 then
    (readBytes img (spec.height * spec.width)).map
      (fun bs => ⟨bs, true, infoText spec⟩)
  else
    let img2 := if 3 ≤ spec.nchannels then sliceFirst3 spec.nchannels img else img
    (readBytes img2 (spec.height * (spec.width * 3))).map
      (fun bs => ⟨bs, false, infoText spec⟩)

/-- Model of `str(e)[:30]` (line 184): an error message truncated to its first 30
characters. -/
def truncate30 (s : String) : String := String.mk (s.data.take 30)

/-- What a `ThumbnailWorker` emits. -/
inductive TaskResult
  | finished (path : String) (preview : Preview)
  | errored (path : String) (msg : String)
deriving DecidableEq

/-- Model of `ThumbnailWorker.run` (lines 129-184): the file either fails to open /
read (`Except.error`, any I/O error, unsupported format or malformed header,
all caught by the `except Exception` handler which emits the truncated
message), or yields a header and float pixels that are decoded.  `none` is
the undefined behaviour case of `decode`. -/
def workerRun (path : String) (file : Except String (ImageSpec × List FloatVal)) :
    Option TaskResult :=
  match file with
  | .error e => some (.errored path (truncate30 e))
  | .ok (spec, pixels) =>
    match decode spec pixels with
    | some prev => some (.finished path prev)
    | none => none

lemma clip01_nonneg (q : ℚ) : 0 ≤ clip01 q := by
  unfold clip01
  exact le_min (by norm_num) (le_max_left 0 q)

lemma clip01_le_one (q : ℚ) : clip01 q ≤ 1 := min_le_left 1 (max 0 q)

lemma quantize8_le_255 (q : ℚ) (h1 : q ≤ 1) : quantize8 q ≤ 255 := by
  unfold quantize8
  have hf : Int.floor (q * 255) ≤ (255 : ℤ) := by
    have : (q * 255 : ℚ) ≤ 255 := by nlinarith
    calc Int.floor (q * 255) ≤ Int.floor (255 : ℚ) := Int.floor_le_floor this
    _ = 255 := by norm_num
  exact Int.toNat_le.mpr hf

lemma sanitizePixel_le_255 (v : FloatVal) : sanitizePixel v ≤ 255 :=
  quantize8_le_255 _ (clip01_le_one _)

lemma sanitizePixel_nan : sanitizePixel FloatVal.nan = 0 := by
  show quantize8 (clip01 0) = 0
  norm_num [clip01, quantize8]

lemma sanitizePixel_pinf : sanitizePixel FloatVal.pinf = 255 := by
  show quantize8 (clip01 F32MAX) = 255
  have h : clip01 F32MAX = 1 := by norm_num [clip01, F32MAX]
  rw [h]; norm_num [quantize8]; rfl

lemma sanitizePixel_ninf : sanitizePixel FloatVal.ninf = 0 := by
  show quantize8 (clip01 (-F32MAX)) = 0
  have h : clip01 (-F32MAX) = 0 := by norm_num [clip01, F32MAX]
  rw [h]; norm_num [quantize8]

/-- C2 counterexample: on a `+Inf` channel the source pipeline
(`np.nan_to_num` then `np.clip` then `*255` cast) produces the byte 255,
whereas the claim's sanitization ("replaces NaN and Inf with 0, then
clamps, then quantizes") would produce 0: `np.nan_to_num` replaces the
infinities by the largest-magnitude finite floats, not by 0. -/
theorem inf_sanitization_c2_counterexample :
    sanitizePixel FloatVal.pinf = 255 ∧ specSanitizePixel FloatVal.pinf = 0 := by
  constructor
  · exact sanitizePixel_pinf
  · show quantize8 (clip01 0) = 0
    norm_num [clip01, quantize8]

/-- C2 (amended): the decoder sanitization replaces NaN with 0 and the
infinities with the largest-magnitude finite values — so `+Inf` saturates
to the byte 255 and `-Inf` to 0 — then clamps every channel to [0,1] and
quantizes by multiplying by 255 and truncating; it never fails on
NaN/Inf/out-of-range values and every output byte is at most 255. -/
theorem sanitize_pipeline_c2 :
    (∀ v, sanitizePixel v ≤ 255) ∧
    sanitizePixel FloatVal.nan = 0 ∧
    sanitizePixel FloatVal.pinf = 255 ∧
    sanitizePixel FloatVal.ninf = 0 ∧
    (∀ q, sanitizePixel (FloatVal.fin q) = (Int.floor (min 1 (max 0 q) * 255)).toNat) ∧
    (∀ img, (sanitize img).length = img.length) :=
  ⟨sanitizePixel_le_255, sanitizePixel_nan, sanitizePixel_pinf, sanitizePixel_ninf,
    fun _ => rfl, fun img => List.length_map img sanitizePixel⟩

/-- C3 (code bug): decoding a well-formed 2-channel image is undefined
behaviour in the source — the non-1-channel branch builds a
`Format_RGB888` `QImage` with stride `width * 3` over a buffer holding only
`width * 2` bytes per row (the `nchannels >= 3` slice does not apply), so
`.copy()` reads past the end of the pixel buffer.  Evaluated here at a 1×1
image with 2 channels: the decode falls off the buffer (`none`) instead of
producing the `Loaded` preview the claim requires. -/
theorem two_channel_out_of_bounds_c3 :
    decode ⟨1, 1, 2⟩ [FloatVal.fin 0, FloatVal.fin 0] = none := by
  norm_num [decode, readBytes, sanitize]

/-- The lifecycle state a thumbnail card is in: `loading` while the pulsing
"⏳ Loading..." label is shown, `loaded` once `_on_thumbnail_loaded` set the
pixmap and the metadata text, `failed` once `_on_thumbnail_error` set the
error marker and the (truncated) message. -/
inductive CardState
  | loading
  | loaded (info : String)
  | failed (msg : String)
deriving DecidableEq

def isLoading : CardState → Bool
  | .loading => true
  | _ => false

/-- States `Loaded` and `Failed` are the terminal states. -/
def isTerminal : CardState → Bool
  | .loading => false
  | _ => true

/-- The session state of `EXRBrowser` that the claims are about:
`card_data` (an insertion-ordered table keyed by absolute path, each entry
carrying its card's lifecycle state), the grid of displayed cards, the
worker pool's queue of submitted-but-not-started tasks, the two progress
counters and the status label text. -/
structure Browser where
  cardData : List (String × CardState)
  grid : List String
  queue : List String
  loadedCount : ℕ
  totalCount : ℕ
  countLabel : String
deriving DecidableEq

/-- The browser right after `__init__` (counters zero, label
"No files loaded", no cards). -/
def initBrowser : Browser :=
  { cardData := [], grid := [], queue := [], loadedCount := 0, totalCount := 0,
    countLabel := "No files loaded" }

/-- Model of the guard `path in self.card_data` (lines 1022 and 1054). -/
def containsPath (cards : List (String × CardState)) (path : String) : Bool :=
  cards.any (fun pc => pc.1 == path)

/-- Looking a card up by path (Python dict access `self.card_data[path]`). -/
def stateOf (b : Browser) (path : String) : Option CardState :=
  (b.cardData.find? (fun pc => pc.1 == path)).map (fun pc => pc.2)

/-- Setting the card registered under `path` to a new lifecycle state
(the widget mutations of the two result slots). -/
def updateCard (cards : List (String × CardState)) (path : String) (st : CardState) :
    List (String × CardState) :=
  cards.map (fun pc => if pc.1 == path then (pc.1, st) else pc)

def successSummary (n : ℕ) : String :=
  "✓ Loaded " ++ toString n ++ " HDRI file" ++ (if n != 1 then "s" else "")

def loadingText (x n : ℕ) : String :=
  "Loading " ++ toString x ++ "/" ++ toString n ++ " HDRI files..."

/-- Model of `EXRBrowser._update_progress` (lines 1080-1092): success summary once
`loaded_count >= total_count`, otherwise the running progress text. -/
def updateProgress (b : Browser) : Browser :=
  if b.totalCount ≤ b.loadedCount then
    { b with countLabel := successSummary b.totalCount }
  else
    { b with countLabel := loadingText b.loadedCount b.totalCount }

/-- The shared shape of the two result slots: if the delivered path is
registered, move its card to `st`, increment `loaded_count` and refresh the
progress label; otherwise do nothing. -/
def applyResult (b : Browser) (path : String) (st : CardState) : Browser :=
  if containsPath b.cardData path then
    updateProgress
      { b with cardData := updateCard b.cardData path st,
               loadedCount := b.loadedCount + 1 }
  else b

/-- Model of `EXRBrowser._on_thumbnail_loaded` (lines 1019-1049): guarded by
`path in self.card_data`; sets the pixmap and the metadata text on that
card, increments `loaded_count`, updates the progress label. -/
def onThumbnailLoaded (b : Browser) (path : String) (info : String) : Browser :=
  if containsPath b.cardData path then
    updateProgress
      { b with cardData := updateCard b.cardData path (.loaded info),
               loadedCount := b.loadedCount + 1 }
  else b

/-- Model of `EXRBrowser._on_thumbnail_error` (lines 1051-1078): guarded by
`path in self.card_data`; marks that card failed with the delivered message,
increments `loaded_count`, updates the progress label. -/
def onThumbnailError (b : Browser) (path : String) (msg : String) : Browser :=
  if containsPath b.cardData path then
    updateProgress
      { b with cardData := updateCard b.cardData path (.failed msg),
               loadedCount := b.loadedCount + 1 }
  else b

/-- Model of `EXRBrowser.clear` (lines 854-867): `thread_pool.clear()` drops the
queued-but-not-started tasks (in-flight workers keep running and their
signal connections stay alive), the card table and both counters are reset
and the grid widgets are destroyed.  The status label is not touched. -/
def clearBrowser (b : Browser) : Browser :=
  { b with cardData := [], grid := [], queue := [], loadedCount := 0,
           totalCount := 0 }

/-- Python `f.lower()`: ASCII lowercasing of every character. -/
def strLower (s : String) : String := String.mk (s.data.map Char.toLower)

/-- Model of `f.lower().endswith((".exr", ".hdr"))` (line 894): case-insensitive
extension match. -/
def matchesExt (f : String) : Bool :=
  List.isSuffixOf ".exr".data (strLower f).data ||
    List.isSuffixOf ".hdr".data (strLower f).data

/-- Model of `os.path.join(folder, f)` for a listing entry. -/
def joinPath (folder f : String) : String := folder ++ "/" ++ f

/-- One iteration of the card-building loop (lines 912-920 with
`_build_card`, lines 932-1000): register the card under its full path in
`Loading` state, place it in the grid, and submit a `ThumbnailWorker` for it
to the pool. -/
def addCard (folder : String) (b : Browser) (f : String) : Browser :=
  { b with cardData := b.cardData ++ [(joinPath folder f, CardState.loading)],
           grid := b.grid ++ [joinPath folder f],
           queue := b.queue ++ [joinPath folder f] }

/-- Model of `EXRBrowser.load_exrs` (lines 886-920).  `isDir` is the outcome of
`os.path.isdir(folder)` and `listing` the outcome of `os.listdir(folder)`,
both supplied by the filesystem. -/
def load_exrs (b : Browser) (folder : String) (isDir : Bool) (listing : List String) :
    Browser :=
  if !isDir then { b with countLabel := "Invalid folder path" }
  else
    let b1 := clearBrowser b
    let files := listing.filter matchesExt
    if files.isEmpty then { b1 with countLabel := "No HDRI files found" }
    else
      let b2 := { b1 with totalCount := files.length, loadedCount := 0,
                          countLabel := "Loading 0/" ++ toString files.length ++
                            " HDRI files..." }
      files.foldl (addCard folder) b2

lemma load_exrs_not_dir (b : Browser) (folder : String) (listing : List String) :
    load_exrs b folder false listing = { b with countLabel := "Invalid folder path" } := by
  simp [load_exrs]

/-- C10: when `load_exrs` is handed a non-directory path it only rewrites the
status label; the card table, both counters, the grid and the pool queue all
keep their prior values, because the `clear()` that would destroy them runs
only after the `os.path.isdir` check passes. -/
theorem invalid_folder_frame_c10 (b : Browser) (folder : String) (listing : List String) :
    load_exrs b folder false listing = { b with countLabel := "Invalid folder path" } ∧
    (load_exrs b folder false listing).cardData = b.cardData ∧
    (load_exrs b folder false listing).loadedCount = b.loadedCount ∧
    (load_exrs b folder false listing).totalCount = b.totalCount ∧
    (load_exrs b folder false listing).grid = b.grid ∧
    (load_exrs b folder false listing).queue = b.queue := by
  rw [load_exrs_not_dir]
  exact ⟨rfl, rfl, rfl, rfl, rfl, rfl⟩

/-- C7: on a non-directory path `load_exrs` reports "Invalid folder path" in
the status label, submits no decode task (the pool queue is untouched), and
returns before listing the folder — the result does not depend on the
directory's contents at all. -/
theorem invalid_folder_no_tasks_c7 (b : Browser) (folder : String) (l1 l2 : List String) :
    (load_exrs b folder false l1).countLabel = "Invalid folder path" ∧
    (load_exrs b folder false l1).queue = b.queue ∧
    load_exrs b folder false l1 = load_exrs b folder false l2 := by
  rw [load_exrs_not_dir, load_exrs_not_dir]
  exact ⟨rfl, rfl, rfl⟩

lemma foldl_addCard (folder : String) :
    ∀ (fs : List String) (b : Browser),
      fs.foldl (addCard folder) b =
        { b with
            cardData := b.cardData ++ fs.map (fun f => (joinPath folder f, CardState.loading)),
            grid := b.grid ++ fs.map (joinPath folder),
            queue := b.queue ++ fs.map (joinPath folder) }
  | [], b => by simp
  | f :: fs, b => by
      rw [List.foldl_cons, foldl_addCard folder fs]
      simp [addCard]

lemma load_exrs_queue (b : Browser) (folder : String) (listing : List String) :
    (load_exrs b folder true listing).queue =
      (listing.filter matchesExt).map (joinPath folder) := by
  unfold load_exrs
  simp only [Bool.not_true, Bool.false_eq_true, if_false]
  split
  · next h => simp_all [clearBrowser, List.isEmpty_iff]
  · rw [foldl_addCard]
    simp [clearBrowser]

/-- C8: a directory whose listing has no `.exr`/`.hdr` entry (matched
case-insensitively) makes `load_exrs` show the "No HDRI files found" status
and submit zero decode tasks; and in general the tasks submitted by a load
are exactly the matching entries of the listing. -/
theorem empty_folder_no_tasks_c8 (b : Browser) (folder : String) (listing : List String)
    (h : listing.filter matchesExt = []) :
    (load_exrs b folder true listing).countLabel = "No HDRI files found" ∧
    (load_exrs b folder true listing).queue = [] ∧
    (∀ l : List String, (load_exrs b folder true l).queue =
      (l.filter matchesExt).map (joinPath folder)) := by
  refine ⟨?_, ?_, fun l => load_exrs_queue b folder l⟩
  · unfold load_exrs
    simp [h, List.isEmpty_iff]
  · rw [load_exrs_queue, h]
    rfl

/-- Witness for C8 at a concrete folder with one non-matching file. -/
theorem empty_folder_no_tasks_c8_witness :
    (["notes.txt"].filter matchesExt = []) ∧
    ((load_exrs initBrowser "F" true ["notes.txt"]).countLabel = "No HDRI files found" ∧
     (load_exrs initBrowser "F" true ["notes.txt"]).queue = [] ∧
     (∀ l : List String, (load_exrs initBrowser "F" true l).queue =
       (l.filter matchesExt).map (joinPath "F"))) :=
  ⟨by decide, empty_folder_no_tasks_c8 initBrowser "F" ["notes.txt"] (by decide)⟩

/-- C1 counterexample: the code has no generation stamp — a late result is
filtered only by `path in self.card_data`.  Re-opening the *same* folder
while the first load's task is still in flight re-registers the same path,
so the stale worker's `finished` signal (its connection to
`_on_thumbnail_loaded` survives `clear()`) is applied to the new session's
card: the new card jumps to `Loaded` and the new session's counter is
incremented by the stale result. -/
theorem stale_result_applied_c1_counterexample :
    ("F/a.exr" ∈ (load_exrs initBrowser "F" true ["a.exr"]).queue) ∧
    (let b2 := load_exrs (load_exrs initBrowser "F" true ["a.exr"]) "F" true ["a.exr"]
     let b3 := onThumbnailLoaded b2 "F/a.exr" "1×1 · 3ch"
     b2.loadedCount = 0 ∧ stateOf b2 "F/a.exr" = some CardState.loading ∧
     stateOf b3 "F/a.exr" = some (CardState.loaded "1×1 · 3ch") ∧
     b3.loadedCount = 1) := by
  decide

/-- C1 (amended): a late result from a previous load is discarded exactly
when its path is absent from the new session's card table — which covers
every reload onto a different folder, but not a reload of the same folder
(see the counterexample).  Here: delivery of any result for an unregistered
path leaves the browser state completely unchanged. -/
theorem stale_result_path_filter_c1 (b : Browser) (path info msg : String)
    (h : containsPath b.cardData path = false) :
    onThumbnailLoaded b path info = b ∧ onThumbnailError b path msg = b := by
  unfold onThumbnailLoaded onThumbnailError
  simp [h]

/-- Witness for the amended C1: a result for a path outside the (empty)
table of a fresh browser is dropped. -/
theorem stale_result_path_filter_c1_witness :
    (containsPath initBrowser.cardData "G/b.hdr" = false) ∧
    (onThumbnailLoaded initBrowser "G/b.hdr" "i" = initBrowser ∧
     onThumbnailError initBrowser "G/b.hdr" "m" = initBrowser) :=
  ⟨by decide, stale_result_path_filter_c1 initBrowser "G/b.hdr" "i" "m" (by decide)⟩

lemma updateProgress_cardData (b : Browser) : (updateProgress b).cardData = b.cardData := by
  unfold updateProgress; split <;> rfl

lemma updateProgress_queue (b : Browser) : (updateProgress b).queue = b.queue := by
  unfold updateProgress; split <;> rfl

lemma updateProgress_loadedCount (b : Browser) :
    (updateProgress b).loadedCount = b.loadedCount := by
  unfold updateProgress; split <;> rfl

lemma updateProgress_totalCount (b : Browser) :
    (updateProgress b).totalCount = b.totalCount := by
  unfold updateProgress; split <;> rfl

lemma updateProgress_countLabel (b : Browser) :
    (updateProgress b).countLabel =
      if b.totalCount ≤ b.loadedCount then successSummary b.totalCount
      else loadingText b.loadedCount b.totalCount := by
  unfold updateProgress; split <;> simp_all

lemma updateCard_keys (cards : List (String × CardState)) (path : String) (st : CardState) :
    (updateCard cards path st).map Prod.fst = cards.map Prod.fst := by
  unfold updateCard
  rw [List.map_map]
  apply List.map_congr_left
  intro pc _
  show (if (pc.1 == path) = true then (pc.1, st) else pc).1 = pc.1
  split <;> rfl

lemma find?_updateCard_self (cards : List (String × CardState)) (path : String)
    (st : CardState) (h : containsPath cards path = true) :
    (updateCard cards path st).find? (fun pc => pc.1 == path) = some (path, st) := by
  induction cards with
  | nil => simp [containsPath] at h
  | cons pc cards ih =>
    by_cases hpc : pc.1 == path
    · have : pc.1 = path := by simpa using hpc
      simp [updateCard, List.find?, hpc, this]
    · have h' : containsPath cards path = true := by
        simpa [containsPath, hpc] using h
      simpa [updateCard, List.find?, hpc] using ih h'

lemma find?_updateCard_other (cards : List (String × CardState)) (path : String)
    (st : CardState) (q : String) (hq : q ≠ path) :
    (updateCard cards path st).find? (fun pc => pc.1 == q) =
      cards.find? (fun pc => pc.1 == q) := by
  induction cards with
  | nil => rfl
  | cons pc cards ih =>
    by_cases hpc : pc.1 == path
    · have hpq : (pc.1 == q) = false := by
        have hpp : pc.1 = path := by simpa using hpc
        simp only [hpp, beq_eq_false_iff_ne]
        exact Ne.symm hq
      simp [updateCard, List.find?, hpc, hpq] at ih ⊢
      exact ih
    · by_cases hq2 : pc.1 == q
      · simp [updateCard, List.find?, hpc, hq2]
      · simp [updateCard, List.find?, hpc, hq2] at ih ⊢
        exact ih

lemma truncate30_length (s : String) : (truncate30 s).length ≤ 30 := by
  show (String.mk (s.data.take 30)).length ≤ 30
  rw [String.length_mk, List.length_take]
  omega

/-- C6: a decode failure is recovered locally.  The worker converts any
exception into an `error` signal carrying the message truncated to 30
characters (nothing escapes), and `_on_thumbnail_error` moves exactly the
failing card to `Failed` with that message while every sibling card, the
card table's keys, the total count and the pool queue are untouched — the
session keeps running. -/
theorem decode_error_isolated_c6 (b : Browser) (p e : String)
    (hp : containsPath b.cardData p = true) :
    (∀ s, workerRun p (Except.error s) = some (TaskResult.errored p (truncate30 s))) ∧
    (truncate30 e).length ≤ 30 ∧
    stateOf (onThumbnailError b p (truncate30 e)) p =
      some (CardState.failed (truncate30 e)) ∧
    (∀ q, q ≠ p →
      stateOf (onThumbnailError b p (truncate30 e)) q = stateOf b q) ∧
    (onThumbnailError b p (truncate30 e)).totalCount = b.totalCount ∧
    (onThumbnailError b p (truncate30 e)).cardData.map Prod.fst =
      b.cardData.map Prod.fst ∧
    (onThumbnailError b p (truncate30 e)).queue = b.queue := by
  have hb : onThumbnailError b p (truncate30 e) =
      updateProgress
        { b with cardData := updateCard b.cardData p (.failed (truncate30 e)),
                 loadedCount := b.loadedCount + 1 } := by
    unfold onThumbnailError
    rw [if_pos hp]
  refine ⟨fun s => rfl, truncate30_length e, ?_, ?_, ?_, ?_, ?_⟩
  · rw [hb]
    unfold stateOf
    rw [updateProgress_cardData]
    simp only
    rw [find?_updateCard_self _ _ _ hp]
    rfl
  · intro q hq
    rw [hb]
    unfold stateOf
    rw [updateProgress_cardData]
    simp only
    rw [find?_updateCard_other _ _ _ _ hq]
  · rw [hb, updateProgress_totalCount]
  · rw [hb]
    rw [updateProgress_cardData]
    simpa using updateCard_keys b.cardData p (.failed (truncate30 e))
  · rw [hb, updateProgress_queue]

/-- Witness for C6: a failing `b.hdr` next to a sibling `a.exr`. -/
theorem decode_error_isolated_c6_witness :
    (containsPath (load_exrs initBrowser "F" true ["a.exr", "b.hdr"]).cardData
        "F/b.hdr" = true) ∧
    ((∀ s, workerRun "F/b.hdr" (Except.error s) =
        some (TaskResult.errored "F/b.hdr" (truncate30 s))) ∧
     (truncate30 "corrupt header").length ≤ 30 ∧
     stateOf (onThumbnailError (load_exrs initBrowser "F" true ["a.exr", "b.hdr"])
        "F/b.hdr" (truncate30 "corrupt header")) "F/b.hdr" =
       some (CardState.failed (truncate30 "corrupt header")) ∧
     (∀ q, q ≠ "F/b.hdr" →
       stateOf (onThumbnailError (load_exrs initBrowser "F" true ["a.exr", "b.hdr"])
          "F/b.hdr" (truncate30 "corrupt header")) q =
         stateOf (load_exrs initBrowser "F" true ["a.exr", "b.hdr"]) q) ∧
     (onThumbnailError (load_exrs initBrowser "F" true ["a.exr", "b.hdr"])
        "F/b.hdr" (truncate30 "corrupt header")).totalCount =
       (load_exrs initBrowser "F" true ["a.exr", "b.hdr"]).totalCount ∧
     (onThumbnailError (load_exrs initBrowser "F" true ["a.exr", "b.hdr"])
        "F/b.hdr" (truncate30 "corrupt header")).cardData.map Prod.fst =
       (load_exrs initBrowser "F" true ["a.exr", "b.hdr"]).cardData.map Prod.fst ∧
     (onThumbnailError (load_exrs initBrowser "F" true ["a.exr", "b.hdr"])
        "F/b.hdr" (truncate30 "corrupt header")).queue =
       (load_exrs initBrowser "F" true ["a.exr", "b.hdr"]).queue) :=
  ⟨by decide,
    decode_error_isolated_c6 (load_exrs initBrowser "F" true ["a.exr", "b.hdr"])
      "F/b.hdr" "corrupt header" (by decide)⟩

/-- A Houdini parameter value: numeric (slider-driven parameters, modelled
exactly as rationals) or a string (the environment map path). -/
inductive ParmVal
  | num (q : ℚ)
  | str (s : String)
deriving DecidableEq

/-- A child node of `/obj` as the adapter sees it: its type name and its
parameter table. -/
structure HostNode where
  typeName : String
  parms : List (String × ParmVal)
deriving DecidableEq

/-- The slice of the Houdini scene the adapter touches: whether
`hou.node("/obj")` resolves, and the ordered children of `/obj`. -/
structure HostScene where
  objExists : Bool
  children : List HostNode
deriving DecidableEq

/-- Model of `next((n for n in obj.children() if n.type().name() == "envlight"), None)`
(lines 334-337, 789-792, 813-816). -/
def findEnv (ns : List HostNode) : Option HostNode :=
  ns.find? (fun n => n.typeName == "envlight")

/-- Model of `parm = env.parm(name); if parm: parm.set(v)`: set a parameter if the
node has it, otherwise do nothing. -/
def setNodeParm (n : HostNode) (pname : String) (v : ParmVal) : HostNode :=
  if (n.parms.find? (fun p => p.1 == pname)).isSome then
    { n with parms := n.parms.map (fun p => if p.1 == pname then (p.1, v) else p) }
  else n

/-- Apply `f` to the first `envlight` child (the node the `next(...)` lookup
returned), leaving every other child untouched. -/
def updateFirstEnv (ns : List HostNode) (f : HostNode → HostNode) : List HostNode :=
  match ns with
  | [] => []
  | n :: rest =>
    if n.typeName == "envlight" then f n :: rest
    else n :: updateFirstEnv rest f

/-- The node `obj.createNode("envlight", "HDRI_Environment_Light")` returns
(line 340).  The parameter set is the host's: a Houdini `envlight` node
carries `env_map`, `light_intensity` and `ry` among its parameters. -/
def newEnvLight : HostNode :=
  { typeName := "envlight",
    parms := [("env_map", .str ""), ("light_intensity", .num 1), ("ry", .num 0)] }

/-- Model of `ClickableLabel._apply_env_light` (lines 328-351): bail out if `/obj` is
missing; find the first `envlight` child, creating one only when none
exists; then set its `env_map` parameter to the clicked thumbnail's path. -/
def applyEnvLight (s : HostScene) (path : String) : HostScene :=
  if s.objExists then
    match findEnv s.children with
    | some _ =>
      { s with children :=
          updateFirstEnv s.children (fun n => setNodeParm n "env_map" (.str path)) }
    | none =>
      { s with children :=
          s.children ++ [setNodeParm newEnvLight "env_map" (.str path)] }
  else s

/-- Model of `EXRBrowser.on_intensity_changed` (lines 779-801), host side: if `/obj`
resolves and an `envlight` child exists, set its `light_intensity` parameter
to `value / 5.0`; otherwise do nothing.  (The handler also rewrites the
slider's value label, a pure UI effect outside this model; the `try/except`
swallows host errors, so the handler never raises.) -/
def on_intensity_changed (s : HostScene) (value : ℤ) : HostScene :=
  if s.objExists then
    match findEnv s.children with
    | some _ =>
      let f := fun n => setNodeParm n "light_intensity" (.num ((value : ℚ) / 5))
      { s with children := updateFirstEnv s.children f }
    | none => s
  else s

/-- Model of `EXRBrowser.on_location_changed` (lines 803-824), host side: if `/obj`
resolves and an `envlight` child exists, set its `ry` parameter (rotation
around the vertical axis) to the slider value in degrees; otherwise do
nothing. -/
def on_location_changed (s : HostScene) (value : ℤ) : HostScene :=
  if s.objExists then
    match findEnv s.children with
    | some _ =>
      { s with children :=
          updateFirstEnv s.children (fun n => setNodeParm n "ry" (.num (value : ℚ))) }
    | none => s
  else s

/-- Number of `envlight` children of `/obj`. -/
def envCount (s : HostScene) : ℕ :=
  s.children.countP (fun n => n.typeName == "envlight")

/-- The three operations that touch the environment light. -/
inductive LightOp
  | select (path : String)
  | intensity (v : ℤ)
  | rotation (r : ℤ)

def applyLightOp (s : HostScene) : LightOp → HostScene
  | .select p => applyEnvLight s p
  | .intensity v => on_intensity_changed s v
  | .rotation r => on_location_changed s r

lemma setNodeParm_typeName (n : HostNode) (pname : String) (v : ParmVal) :
    (setNodeParm n pname v).typeName = n.typeName := by
  unfold setNodeParm
  split <;> rfl

lemma countP_updateFirstEnv (f : HostNode → HostNode)
    (hf : ∀ n, (f n).typeName = n.typeName) :
    ∀ ns : List HostNode,
      (updateFirstEnv ns f).countP (fun n => n.typeName == "envlight") =
        ns.countP (fun n => n.typeName == "envlight")
  | [] => rfl
  | n :: rest => by
    unfold updateFirstEnv
    by_cases h : n.typeName == "envlight"
    · simp [h, List.countP_cons, hf]
    · simp [h, List.countP_cons, countP_updateFirstEnv f hf rest]

lemma findEnv_none_countP (ns : List HostNode) (h : findEnv ns = none) :
    ns.countP (fun n => n.typeName == "envlight") = 0 := by
  rw [List.countP_eq_zero]
  intro n hn
  exact List.find?_eq_none.mp h n hn

lemma envCount_on_intensity (s : HostScene) (v : ℤ) :
    envCount (on_intensity_changed s v) = envCount s := by
  unfold on_intensity_changed envCount
  split
  · split
    · exact countP_updateFirstEnv _ (fun n => setNodeParm_typeName n _ _) _
    · rfl
  · rfl

lemma envCount_on_location (s : HostScene) (r : ℤ) :
    envCount (on_location_changed s r) = envCount s := by
  unfold on_location_changed envCount
  split
  · split
    · exact countP_updateFirstEnv _ (fun n => setNodeParm_typeName n _ _) _
    · rfl
  · rfl

lemma envCount_applyEnvLight_some (s : HostScene) (p : String)
    (h : (findEnv s.children).isSome) :
    envCount (applyEnvLight s p) = envCount s := by
  unfold applyEnvLight envCount
  split
  · split
    · exact countP_updateFirstEnv _ (fun n => setNodeParm_typeName n _ _) _
    · next heq => rw [heq] at h; simp at h
  · rfl

lemma envCount_applyEnvLight_none (s : HostScene) (p : String)
    (h : findEnv s.children = none) (hobj : s.objExists = true) :
    envCount (applyEnvLight s p) = 1 := by
  unfold applyEnvLight envCount
  rw [if_pos hobj, h]
  simp only
  rw [List.countP_append, findEnv_none_countP s.children h]
  simp [setNodeParm_typeName, newEnvLight, List.countP_cons]

lemma envCount_applyEnvLight_le (s : HostScene) (p : String) (h : envCount s ≤ 1) :
    envCount (applyEnvLight s p) ≤ 1 := by
  by_cases hobj : s.objExists = true
  · cases henv : findEnv s.children with
    | none => rw [envCount_applyEnvLight_none s p henv hobj]
    | some n =>
      rw [envCount_applyEnvLight_some s p (by rw [henv]; rfl)]
      exact h
  · unfold applyEnvLight
    rw [if_neg hobj]
    exact h

/-- C9: only image selection can create an environment light, and only when
none exists; the two slider handlers never create one.  Hence any sequence
of select/rotate/intensity operations starting from a scene with at most
one `envlight` child keeps at most one `envlight` child. -/
theorem single_envlight_c9 (s : HostScene) (ops : List LightOp)
    (h : envCount s ≤ 1) :
    envCount (ops.foldl applyLightOp s) ≤ 1 ∧
    (∀ v, envCount (on_intensity_changed s v) = envCount s) ∧
    (∀ r, envCount (on_location_changed s r) = envCount s) ∧
    (∀ p, findEnv s.children = none → s.objExists = true →
      envCount (applyEnvLight s p) = 1) ∧
    (∀ p, (findEnv s.children).isSome → envCount (applyEnvLight s p) = envCount s) := by
  refine ⟨?_, envCount_on_intensity s, envCount_on_location s,
    fun p hn ho => envCount_applyEnvLight_none s p hn ho,
    fun p hs => envCount_applyEnvLight_some s p hs⟩
  induction ops generalizing s with
  | nil => exact h
  | cons op ops ih =>
    rw [List.foldl_cons]
    apply ih
    cases op with
    | select p => exact envCount_applyEnvLight_le s p h
    | intensity v => rw [applyLightOp, envCount_on_intensity]; exact h
    | rotation r => rw [applyLightOp, envCount_on_location]; exact h

/-- Witness for C9: an empty `/obj`, then selecting an image twice and
moving both sliders. -/
theorem single_envlight_c9_witness :
    (envCount ⟨true, []⟩ ≤ 1) ∧
    (envCount ([LightOp.select "a.exr", LightOp.intensity 40, LightOp.rotation 90,
        LightOp.select "b.hdr"].foldl applyLightOp ⟨true, []⟩) ≤ 1 ∧
     (∀ v, envCount (on_intensity_changed ⟨true, []⟩ v) = envCount ⟨true, []⟩) ∧
     (∀ r, envCount (on_location_changed ⟨true, []⟩ r) = envCount ⟨true, []⟩) ∧
     (∀ p, findEnv (HostScene.mk true []).children = none →
        (HostScene.mk true []).objExists = true →
        envCount (applyEnvLight ⟨true, []⟩ p) = 1) ∧
     (∀ p, (findEnv (HostScene.mk true []).children).isSome →
        envCount (applyEnvLight ⟨true, []⟩ p) = envCount ⟨true, []⟩)) :=
  ⟨by decide,
    single_envlight_c9 ⟨true, []⟩
      [LightOp.select "a.exr", LightOp.intensity 40, LightOp.rotation 90,
        LightOp.select "b.hdr"] (by decide)⟩

/-- Model of `env.parm(name)` as a lookup: the parameter's current value if the node
has it. -/
def getParm (n : HostNode) (pname : String) : Option ParmVal :=
  (n.parms.find? (fun p => p.1 == pname)).map (fun p => p.2)

/-- Predicate for "an environment light entity exists": `/obj` resolves and has an
`envlight` child. -/
def envExists (s : HostScene) : Bool := s.objExists && (findEnv s.children).isSome

lemma find?_setAssoc_self (l : List (String × ParmVal)) (key : String) (v : ParmVal)
    (h : (l.find? (fun p => p.1 == key)).isSome) :
    (l.map (fun p => if p.1 == key then (p.1, v) else p)).find?
      (fun p => p.1 == key) = some (key, v) := by
  induction l with
  | nil => simp at h
  | cons p l ih =>
    by_cases hp : p.1 == key
    · have hpk : p.1 = key := by simpa using hp
      simp [List.find?, hp, hpk]
    · have h' : (List.find? (fun p => p.1 == key) l).isSome := by
        simpa [List.find?, hp] using h
      simpa [List.find?, hp] using ih h'

lemma getParm_setNodeParm_self (n : HostNode) (pname : String) (v : ParmVal)
    (h : (getParm n pname).isSome) :
    getParm (setNodeParm n pname v) pname = some v := by
  have hfind : (n.parms.find? (fun p => p.1 == pname)).isSome := by
    unfold getParm at h
    simpa [Option.isSome_map] using h
  unfold setNodeParm
  rw [if_pos hfind]
  unfold getParm
  simp only
  rw [find?_setAssoc_self n.parms pname v hfind]
  rfl

lemma findEnv_updateFirstEnv (f : HostNode → HostNode)
    (hf : ∀ n, (f n).typeName = n.typeName) :
    ∀ (ns : List HostNode) (n : HostNode), findEnv ns = some n →
      findEnv (updateFirstEnv ns f) = some (f n)
  | [], n => by simp [findEnv]
  | m :: rest, n => by
    intro hsome
    by_cases h : m.typeName == "envlight"
    · have hm : m = n := by
        unfold findEnv at hsome
        simpa [List.find?, h] using hsome
      subst hm
      unfold updateFirstEnv
      rw [if_pos h]
      unfold findEnv
      simp [List.find?, hf, h]
    · have hsome' : findEnv rest = some n := by
        unfold findEnv at hsome ⊢
        simpa [List.find?, h] using hsome
      unfold updateFirstEnv
      rw [if_neg h]
      have hrec := findEnv_updateFirstEnv f hf rest n hsome'
      unfold findEnv at hrec ⊢
      simpa [List.find?, h] using hrec

lemma envExists_false_noop (s : HostScene) (v r : ℤ) (h : envExists s = false) :
    on_intensity_changed s v = s ∧ on_location_changed s r = s := by
  unfold envExists at h
  rw [Bool.and_eq_false_iff] at h
  unfold on_intensity_changed on_location_changed
  rcases h with h | h
  · rw [if_neg (by simp [h]), if_neg (by simp [h])]
    exact ⟨rfl, rfl⟩
  · have hn : findEnv s.children = none := by
      cases hfe : findEnv s.children with
      | none => rfl
      | some n => rw [hfe] at h; simp at h
    constructor
    · by_cases ho : s.objExists = true
      · rw [if_pos ho, hn]
      · rw [if_neg ho]
    · by_cases ho : s.objExists = true
      · rw [if_pos ho, hn]
      · rw [if_neg ho]

/-- C5: the intensity handler sets the host light's `light_intensity`
parameter to exactly `v / 5.0` (reachable range `[0, 20]` for slider values
in `[0, 100]`), and the rotation handler sets the light's vertical-axis
rotation `ry` to exactly `r` degrees — both only when an environment light
entity already exists (and carries the parameter); when no such entity
exists the handlers leave the scene unchanged and raise nothing (the model
is a total function; the source additionally wraps the body in
`try/except`). -/
theorem slider_mapping_c5 (s : HostScene) (v r : ℤ)
    (hv : 0 ≤ v ∧ v ≤ 100) (hr : -360 ≤ r ∧ r ≤ 360) :
    (envExists s = false →
      on_intensity_changed s v = s ∧ on_location_changed s r = s) ∧
    (0 ≤ (v : ℚ) / 5 ∧ (v : ℚ) / 5 ≤ 20) ∧
    (∀ n, findEnv s.children = some n → s.objExists = true →
      (getParm n "light_intensity").isSome →
      ∃ n2, findEnv (on_intensity_changed s v).children = some n2 ∧
        getParm n2 "light_intensity" = some (ParmVal.num ((v : ℚ) / 5))) ∧
    (∀ n, findEnv s.children = some n → s.objExists = true →
      (getParm n "ry").isSome →
      ∃ n2, findEnv (on_location_changed s r).children = some n2 ∧
        getParm n2 "ry" = some (ParmVal.num (r : ℚ))) := by
  refine ⟨envExists_false_noop s v r, ⟨?_, ?_⟩, ?_, ?_⟩
  · have h0 : (0 : ℚ) ≤ (v : ℚ) := by exact_mod_cast hv.1
    linarith
  · have h100 : (v : ℚ) ≤ 100 := by exact_mod_cast hv.2
    linarith
  · intro n hfe hobj hparm
    refine ⟨setNodeParm n "light_intensity" (.num ((v : ℚ) / 5)), ?_, ?_⟩
    · unfold on_intensity_changed
      rw [if_pos hobj, hfe]
      exact findEnv_updateFirstEnv _ (fun m => setNodeParm_typeName m _ _)
        s.children n hfe
    · exact getParm_setNodeParm_self n _ _ hparm
  · intro n hfe hobj hparm
    refine ⟨setNodeParm n "ry" (.num (r : ℚ)), ?_, ?_⟩
    · unfold on_location_changed
      rw [if_pos hobj, hfe]
      exact findEnv_updateFirstEnv _ (fun m => setNodeParm_typeName m _ _)
        s.children n hfe
    · exact getParm_setNodeParm_self n _ _ hparm

/-- Witness for C5: a scene holding one freshly created environment light,
slider values 10 (intensity) and 90 (rotation). -/
theorem slider_mapping_c5_witness :
    ((0 ≤ (10 : ℤ) ∧ (10 : ℤ) ≤ 100) ∧ (-360 ≤ (90 : ℤ) ∧ (90 : ℤ) ≤ 360)) ∧
    ((envExists ⟨true, [newEnvLight]⟩ = false →
      on_intensity_changed ⟨true, [newEnvLight]⟩ 10 = ⟨true, [newEnvLight]⟩ ∧
      on_location_changed ⟨true, [newEnvLight]⟩ 90 = ⟨true, [newEnvLight]⟩) ∧
     (0 ≤ ((10 : ℤ) : ℚ) / 5 ∧ ((10 : ℤ) : ℚ) / 5 ≤ 20) ∧
     (∀ n, findEnv (HostScene.mk true [newEnvLight]).children = some n →
       (HostScene.mk true [newEnvLight]).objExists = true →
       (getParm n "light_intensity").isSome →
       ∃ n2, findEnv (on_intensity_changed ⟨true, [newEnvLight]⟩ 10).children = some n2 ∧
         getParm n2 "light_intensity" = some (ParmVal.num (((10 : ℤ) : ℚ) / 5))) ∧
     (∀ n, findEnv (HostScene.mk true [newEnvLight]).children = some n →
       (HostScene.mk true [newEnvLight]).objExists = true →
       (getParm n "ry").isSome →
       ∃ n2, findEnv (on_location_changed ⟨true, [newEnvLight]⟩ 90).children = some n2 ∧
         getParm n2 "ry" = some (ParmVal.num ((90 : ℤ) : ℚ)))) :=
  ⟨⟨⟨by decide, by decide⟩, ⟨by decide, by decide⟩⟩,
    slider_mapping_c5 ⟨true, [newEnvLight]⟩ 10 90 ⟨by decide, by decide⟩
      ⟨by decide, by decide⟩⟩

/-- One task result as delivered to the coordinating thread: the worker
emitted either `finished(path, pixmap, info_text)` or
`error(path, error_msg)`. -/
inductive Outcome
  | ok (path info : String)
  | err (path msg : String)
deriving DecidableEq

def Outcome.path : Outcome → String
  | .ok p _ => p
  | .err p _ => p

/-- The card state a delivered outcome installs. -/
def Outcome.state : Outcome → CardState
  | .ok _ i => .loaded i
  | .err _ m => .failed m

/-- Dispatch of a delivered result to the matching slot. -/
def deliver (b : Browser) : Outcome → Browser
  | .ok p i => onThumbnailLoaded b p i
  | .err p m => onThumbnailError b p m

lemma deliver_eq (b : Browser) (o : Outcome) :
    deliver b o = applyResult b o.path o.state := by
  cases o <;> rfl

lemma outcomeState_not_loading (o : Outcome) : isLoading o.state = false := by
  cases o <;> rfl

lemma containsPath_eq_true_iff (cards : List (String × CardState)) (p : String) :
    containsPath cards p = true ↔ p ∈ cards.map Prod.fst := by
  simp [containsPath, List.any_eq_true, List.mem_map, beq_iff_eq]

lemma isTerminal_of_not_isLoading (s : CardState) (h : isLoading s = false) :
    isTerminal s = true := by
  cases s <;> simp_all [isLoading, isTerminal]

/-- The coordinating-thread invariant of one folder-load session: `keys0`
are the card table's keys (in grid order), `rem` the paths whose card is
still `Loading`; cards off `rem` are terminal, the label always shows what
`_update_progress` last wrote (or the initial "Loading 0/N" text), and
`loadedCount` counts the delivered results. -/
structure SessionInv (N : ℕ) (keys0 : List String) (b : Browser)
    (rem : List String) : Prop where
  keys_eq : b.cardData.map Prod.fst = keys0
  keys_nodup : keys0.Nodup
  rem_nodup : rem.Nodup
  rem_sub : ∀ p ∈ rem, p ∈ keys0
  loading_iff : ∀ pc ∈ b.cardData, (isLoading pc.2 = true ↔ pc.1 ∈ rem)
  total_eq : b.totalCount = N
  count_eq : b.loadedCount + rem.length = N
  label_eq : b.countLabel =
    if b.totalCount ≤ b.loadedCount then successSummary b.totalCount
    else loadingText b.loadedCount b.totalCount

lemma applyResult_step (N : ℕ) (keys0 : List String) (b : Browser)
    (rem : List String) (p : String) (st : CardState)
    (hInv : SessionInv N keys0 b rem) (hp : p ∈ rem)
    (hst : isLoading st = false) :
    SessionInv N keys0 (applyResult b p st) (rem.erase p) ∧
    (applyResult b p st).loadedCount = b.loadedCount + 1 := by
  have hkey : p ∈ keys0 := hInv.rem_sub p hp
  have hcp : containsPath b.cardData p = true := by
    rw [containsPath_eq_true_iff, hInv.keys_eq]
    exact hkey
  have happ : applyResult b p st =
      updateProgress { b with cardData := updateCard b.cardData p st,
                              loadedCount := b.loadedCount + 1 } := by
    unfold applyResult
    rw [if_pos hcp]
  have hlen : (rem.erase p).length = rem.length - 1 := List.length_erase_of_mem hp
  have hpos : 0 < rem.length := List.length_pos_of_mem hp
  rw [happ]
  constructor
  · refine ⟨?_, hInv.keys_nodup, hInv.rem_nodup.erase p, ?_, ?_, ?_, ?_, ?_⟩
    · rw [updateProgress_cardData]
      show (updateCard b.cardData p st).map Prod.fst = keys0
      rw [updateCard_keys]
      exact hInv.keys_eq
    · intro q hq
      exact hInv.rem_sub q (List.mem_of_mem_erase hq)
    · rw [updateProgress_cardData]
      intro pc hpc
      show isLoading pc.2 = true ↔ pc.1 ∈ rem.erase p
      unfold updateCard at hpc
      obtain ⟨pc0, hpc0, hmap⟩ := List.mem_map.mp hpc
      by_cases hb : pc0.1 == p
      · have hbp : pc0.1 = p := by simpa using hb
        rw [if_pos hb] at hmap
        subst hmap
        simp only [hst, hbp]
        constructor
        · intro hfalse
          exact absurd hfalse (by simp)
        · intro hmem
          exact absurd ((hInv.rem_nodup.mem_erase_iff).mp hmem).1 (by simp)
      · have hbp : pc0.1 ≠ p := by simpa using hb
        rw [if_neg hb] at hmap
        subst hmap
        rw [hInv.loading_iff pc0 hpc0]
        exact (List.mem_erase_of_ne hbp).symm
    · rw [updateProgress_totalCount]
      exact hInv.total_eq
    · rw [updateProgress_loadedCount]
      show b.loadedCount + 1 + (rem.erase p).length = N
      have := hInv.count_eq
      omega
    · rw [updateProgress_countLabel, updateProgress_totalCount,
        updateProgress_loadedCount]
  · rw [updateProgress_loadedCount]

lemma run_deliveries (N : ℕ) (keys0 : List String) (rs : List Outcome) :
    ∀ (b : Browser) (rem : List String),
      SessionInv N keys0 b rem → (rs.map Outcome.path).Perm rem →
      SessionInv N keys0 (rs.foldl deliver b) [] := by
  induction rs with
  | nil =>
    intro b rem hInv hperm
    have hrem : rem = [] := List.perm_nil.mp hperm.symm
    subst hrem
    exact hInv
  | cons o rs ih =>
    intro b rem hInv hperm
    have hmem : o.path ∈ rem := hperm.subset (by simp)
    have hperm' : (rs.map Outcome.path).Perm (rem.erase o.path) := by
      have h1 : rem.Perm (o.path :: rem.erase o.path) := List.perm_cons_erase hmem
      have h2 : (o.path :: rs.map Outcome.path).Perm (o.path :: rem.erase o.path) := by
        refine List.Perm.trans ?_ h1
        simpa using hperm
      exact (List.perm_cons o.path).mp h2
    have hstep := applyResult_step N keys0 b rem o.path o.state hInv hmem
      (outcomeState_not_loading o)
    rw [List.foldl_cons, deliver_eq]
    exact ih _ _ hstep.1 hperm'

lemma run_deliveries_take (N : ℕ) (keys0 : List String) (rs : List Outcome) :
    ∀ (b : Browser) (rem : List String),
      SessionInv N keys0 b rem → (rs.map Outcome.path).Perm rem →
      ∀ k, k ≤ rs.length →
        ∃ remk, SessionInv N keys0 ((rs.take k).foldl deliver b) remk ∧
          remk.length + k = rem.length := by
  induction rs with
  | nil =>
    intro b rem hInv hperm k hk
    have hk0 : k = 0 := Nat.le_zero.mp hk
    subst hk0
    exact ⟨rem, by simpa using hInv, by simp⟩
  | cons o rs ih =>
    intro b rem hInv hperm k hk
    cases k with
    | zero => exact ⟨rem, by simpa using hInv, by simp⟩
    | succ k =>
      have hmem : o.path ∈ rem := hperm.subset (by simp)
      have hperm' : (rs.map Outcome.path).Perm (rem.erase o.path) := by
        have h1 : rem.Perm (o.path :: rem.erase o.path) := List.perm_cons_erase hmem
        have h2 : (o.path :: rs.map Outcome.path).Perm (o.path :: rem.erase o.path) := by
          refine List.Perm.trans ?_ h1
          simpa using hperm
        exact (List.perm_cons o.path).mp h2
      have hstep := applyResult_step N keys0 b rem o.path o.state hInv hmem
        (outcomeState_not_loading o)
      obtain ⟨remk, h1, h2⟩ := ih _ _ hstep.1 hperm' k (by simpa using hk)
      refine ⟨remk, ?_, ?_⟩
      · rw [List.take_succ_cons, List.foldl_cons, deliver_eq]
        exact h1
      · have hlen : (rem.erase o.path).length = rem.length - 1 :=
          List.length_erase_of_mem hmem
        have hpos : 0 < rem.length := List.length_pos_of_mem hmem
        omega

lemma string_append_left_cancel (x a b : String) (h : x ++ a = x ++ b) : a = b := by
  apply String.ext
  have hd := congrArg String.data h
  rw [String.data_append, String.data_append] at hd
  exact List.append_cancel_left hd

lemma joinPath_injective (folder : String) : Function.Injective (joinPath folder) := by
  intro a b h
  unfold joinPath at h
  exact string_append_left_cancel (folder ++ "/") a b h

lemma initLabel_eq (n : ℕ) :
    "Loading 0/" ++ toString n ++ " HDRI files..." = loadingText 0 n := by
  unfold loadingText
  congr 2

lemma load_exrs_eq (binit : Browser) (folder : String) (listing : List String)
    (hne : listing.filter matchesExt ≠ []) :
    load_exrs binit folder true listing =
      { cardData := (listing.filter matchesExt).map
          (fun f => (joinPath folder f, CardState.loading)),
        grid := (listing.filter matchesExt).map (joinPath folder),
        queue := (listing.filter matchesExt).map (joinPath folder),
        loadedCount := 0,
        totalCount := (listing.filter matchesExt).length,
        countLabel := "Loading 0/" ++ toString (listing.filter matchesExt).length ++
          " HDRI files..." } := by
  unfold load_exrs
  have hie : ¬((listing.filter matchesExt).isEmpty = true) := by
    simpa [List.isEmpty_iff] using hne
  simp only [Bool.not_true, Bool.false_eq_true, if_false, hie, ite_false]
  rw [foldl_addCard]
  simp [clearBrowser]

lemma load_establishes_inv (binit : Browser) (folder : String) (listing : List String)
    (hnodup : listing.Nodup) (hne : listing.filter matchesExt ≠ []) :
    SessionInv (listing.filter matchesExt).length
      ((listing.filter matchesExt).map (joinPath folder))
      (load_exrs binit folder true listing)
      ((listing.filter matchesExt).map (joinPath folder)) := by
  have hN : 0 < (listing.filter matchesExt).length :=
    List.length_pos.mpr hne
  have hkn : ((listing.filter matchesExt).map (joinPath folder)).Nodup :=
    (hnodup.filter matchesExt).map (joinPath_injective folder)
  rw [load_exrs_eq binit folder listing hne]
  refine ⟨?_, hkn, hkn, fun p hp => hp, ?_, rfl, by simp, ?_⟩
  · simp [Function.comp_def]
  · intro pc hpc
    obtain ⟨f, hf, hmap⟩ := List.mem_map.mp hpc
    subst hmap
    simp only [isLoading, true_iff]
    exact List.mem_map.mpr ⟨f, hf, rfl⟩
  · simp only
    rw [if_neg (by omega)]
    exact initLabel_eq _

/-- C4: after a successful folder load that lists `N ≥ 1` matching files,
delivering all `N` task results (successes or failures, each exactly once,
no stale deliveries) leaves `completed = total = N`, every card in a
terminal state, and the status label at the success summary; and after any
`k` of the deliveries the completed counter reads `k`, with the label
showing the running "Loading k/N" text while `k < N` and the success
summary once `k = N`. -/
theorem all_tasks_complete_c4 (binit : Browser) (folder : String)
    (listing : List String) (rs : List Outcome)
    (hnodup : listing.Nodup)
    (hne : listing.filter matchesExt ≠ [])
    (hperm : (rs.map Outcome.path).Perm
      ((listing.filter matchesExt).map (joinPath folder))) :
    ((rs.foldl deliver (load_exrs binit folder true listing)).loadedCount =
        (listing.filter matchesExt).length ∧
      (rs.foldl deliver (load_exrs binit folder true listing)).totalCount =
        (listing.filter matchesExt).length ∧
      (∀ pc ∈ (rs.foldl deliver (load_exrs binit folder true listing)).cardData,
        isTerminal pc.2 = true) ∧
      (rs.foldl deliver (load_exrs binit folder true listing)).countLabel =
        successSummary (listing.filter matchesExt).length) ∧
    (∀ k, k ≤ rs.length →
      ((rs.take k).foldl deliver (load_exrs binit folder true listing)).loadedCount = k ∧
      (((rs.take k).foldl deliver (load_exrs binit folder true listing)).loadedCount <
          (listing.filter matchesExt).length →
        ((rs.take k).foldl deliver (load_exrs binit folder true listing)).countLabel =
          loadingText k (listing.filter matchesExt).length) ∧
      ((listing.filter matchesExt).length ≤
          ((rs.take k).foldl deliver (load_exrs binit folder true listing)).loadedCount →
        ((rs.take k).foldl deliver (load_exrs binit folder true listing)).countLabel =
          successSummary (listing.filter matchesExt).length)) := by
  have hInv0 := load_establishes_inv binit folder listing hnodup hne
  have hremlen : ((listing.filter matchesExt).map (joinPath folder)).length =
      (listing.filter matchesExt).length := List.length_map _ _
  constructor
  · have hfin := run_deliveries _ _ rs _ _ hInv0 hperm
    have hl : (rs.foldl deliver (load_exrs binit folder true listing)).loadedCount =
        (listing.filter matchesExt).length := by
      have := hfin.count_eq
      simpa using this
    refine ⟨hl, hfin.total_eq, ?_, ?_⟩
    · intro pc hpc
      apply isTerminal_of_not_isLoading
      have := (hfin.loading_iff pc hpc)
      simp only [List.not_mem_nil, iff_false] at this
      exact Bool.eq_false_iff.mpr (fun hb => this hb)
    · rw [hfin.label_eq, hfin.total_eq, hl, if_pos le_rfl]
  · intro k hk
    obtain ⟨remk, hks, hklen⟩ :=
      run_deliveries_take _ _ rs _ _ hInv0 hperm k hk
    rw [hremlen] at hklen
    have hload : ((rs.take k).foldl deliver
        (load_exrs binit folder true listing)).loadedCount = k := by
      have := hks.count_eq
      omega
    refine ⟨hload, ?_, ?_⟩
    · intro hlt
      rw [hks.label_eq, hks.total_eq, hload]
      rw [hload] at hlt
      rw [if_neg (by omega)]
    · intro hge
      rw [hks.label_eq, hks.total_eq, hload]
      rw [hload] at hge
      rw [if_pos (by omega)]

/-- Witness for C4: one-file folder, its single success delivered. -/
theorem all_tasks_complete_c4_witness :
    ((["a.exr"] : List String).Nodup ∧
     ["a.exr"].filter matchesExt ≠ [] ∧
     ([Outcome.ok "F/a.exr" "2×2 · 3ch"].map Outcome.path).Perm
       ((["a.exr"].filter matchesExt).map (joinPath "F"))) ∧
    ((([Outcome.ok "F/a.exr" "2×2 · 3ch"].foldl deliver
          (load_exrs initBrowser "F" true ["a.exr"])).loadedCount =
        (["a.exr"].filter matchesExt).length ∧
      ([Outcome.ok "F/a.exr" "2×2 · 3ch"].foldl deliver
          (load_exrs initBrowser "F" true ["a.exr"])).totalCount =
        (["a.exr"].filter matchesExt).length ∧
      (∀ pc ∈ ([Outcome.ok "F/a.exr" "2×2 · 3ch"].foldl deliver
          (load_exrs initBrowser "F" true ["a.exr"])).cardData,
        isTerminal pc.2 = true) ∧
      ([Outcome.ok "F/a.exr" "2×2 · 3ch"].foldl deliver
          (load_exrs initBrowser "F" true ["a.exr"])).countLabel =
        successSummary (["a.exr"].filter matchesExt).length) ∧
    (∀ k, k ≤ ([Outcome.ok "F/a.exr" "2×2 · 3ch"] : List Outcome).length →
      (([Outcome.ok "F/a.exr" "2×2 · 3ch"].take k).foldl deliver
          (load_exrs initBrowser "F" true ["a.exr"])).loadedCount = k ∧
      ((([Outcome.ok "F/a.exr" "2×2 · 3ch"].take k).foldl deliver
          (load_exrs initBrowser "F" true ["a.exr"])).loadedCount <
          (["a.exr"].filter matchesExt).length →
        (([Outcome.ok "F/a.exr" "2×2 · 3ch"].take k).foldl deliver
          (load_exrs initBrowser "F" true ["a.exr"])).countLabel =
          loadingText k (["a.exr"].filter matchesExt).length) ∧
      ((["a.exr"].filter matchesExt).length ≤
          (([Outcome.ok "F/a.exr" "2×2 · 3ch"].take k).foldl deliver
            (load_exrs initBrowser "F" true ["a.exr"])).loadedCount →
        (([Outcome.ok "F/a.exr" "2×2 · 3ch"].take k).foldl deliver
          (load_exrs initBrowser "F" true ["a.exr"])).countLabel =
          successSummary (["a.exr"].filter matchesExt).length))) :=
  ⟨⟨by decide, by decide, List.Perm.refl _⟩,
    all_tasks_complete_c4 initBrowser "F" ["a.exr"]
      [Outcome.ok "F/a.exr" "2×2 · 3ch"] (by decide) (by decide)
      (List.Perm.refl _)⟩
